import Mathlib

/-!
Shallow embedding of the session-lifecycle core of
`src/progressive_ml_dev/cli.py` (class `ProgressiveMLCLI`): the tmux adapter
(`_run_tmux`), the JSON metadata store (`_save_session_info`,
`_load_session_info`) and the lifecycle operations (`start`, `send`,
`force_send`, `read`, `pause`, `resume`, `stop`).

External mutable state — the tmux session table entry for the fixed session
name, the per-name metadata file, and the keystrokes transmitted so far — is a
`World`.  The outcomes of the external tmux subprocess invocations and the
ambient environment (filesystem, clock, current directory) are an oracle
`Env`.  A Python exception that the code lets escape (there is no try/except
around `json.load` in `_load_session_info`) is modelled as `Except.error ()`.

Every CLI invocation constructs a fresh `ProgressiveMLCLI` object (`main`,
lines 803-877), so lifecycle properties about the CLI surface are stated over
the freshly initialised in-memory state `initCLI` plus an arbitrary `World`.
-/

set_option autoImplicit false

namespace Cli

/-- Python `str.strip` as used by `_run_tmux` (line 69): leading and trailing
whitespace removed, the interior untouched. -/
def pyStrip (s : String) : String :=
  ⟨((s.data.dropWhile Char.isWhitespace).reverse.dropWhile
      Char.isWhitespace).reverse⟩

/-- The flat JSON record persisted by `_save_session_info` and read back by
`_load_session_info`.  Each field models one optional key of the JSON object
(a key may be absent, hence `Option`). -/
structure SessionInfo where
  paused : Option Bool
  venv_path : Option String
  session_name : Option String
  created_at : Option Nat
  working_dir : Option String
  status : Option String
deriving DecidableEq

/-- The empty record `{}` returned when no metadata file exists (line 95). -/
def emptyInfo : SessionInfo := ⟨none, none, none, none, none, none⟩

/-- The in-memory fields of a `ProgressiveMLCLI` object set in `__init__`
(lines 47-55). -/
structure CLIState where
  session_name : String
  venv_path : Option String
  paused : Bool
  interactive_delay : Nat
deriving DecidableEq

/-- A freshly constructed `ProgressiveMLCLI()` as `main()` builds it for every
CLI invocation: `session_name = "claude"`, `venv_path = None`,
`paused = False`. -/
def initCLI : CLIState :=
  { session_name := "claude", venv_path := none, paused := false,
    interactive_delay := 5 }

/-- External mutable state shared across CLI invocations: whether the tmux
session with the fixed name exists, the metadata file (`none` = absent,
`some none` = present but malformed JSON, `some (some i)` = well-formed with
contents `i`), the list of command strings transmitted as keystrokes so far
(each entry is followed by an Enter key in the real argv), and the number of
`new-session` invocations issued. -/
structure World where
  sessionExists : Bool
  metadataFile : Option (Option SessionInfo)
  sentKeys : List String
  newSessionCalls : Nat
deriving DecidableEq

/-- Oracle for the outcomes of the external tmux subprocess invocations and
the ambient environment: whether `new-session` succeeds and its stderr text
otherwise, whether `send-keys` succeeds, the raw stdout of `capture-pane` on
success (`none` = the invocation failed), whether `kill-session` succeeds,
the filesystem (`pathExists`), `time.time()` and `os.getcwd()`. -/
structure Env where
  newSessionOk : Bool
  newSessionErr : String
  sendKeysOk : Bool
  captureResult : Option String
  killOk : Bool
  pathExists : String → Bool
  now : Nat
  cwd : String

/-- The shape of one `subprocess.run` invocation. -/
structure SubprocessCall where
  argv : List String
  captureOutput : Bool
  text : Bool
  check : Bool
  timeout : Option Nat
deriving DecidableEq

/-- The invocation `_run_tmux` issues (lines 60-65):
`subprocess.run(["tmux"] + cmd, capture_output=True, text=True, check=True)`
— no `timeout=` argument is passed. -/
def runTmuxCall (cmd : List String) : SubprocessCall :=
  { argv := "tmux" :: cmd, captureOutput := true, text := true, check := true,
    timeout := none }

/-- Exit of one tmux subprocess: exit code plus captured stdout and stderr. -/
inductive ProcOutcome where
  | exit (code : Nat) (stdout stderr : String)
deriving DecidableEq

/-- `_run_tmux`'s translation of the subprocess outcome (lines 57-71): exit
code 0 returns `(stdout.strip(), stderr.strip())`; a non-zero exit raises
`CalledProcessError` inside `subprocess.run` (because of `check=True`), which
is caught and returned as `(None, e.stderr.strip())` — never re-raised. -/
def runTmux : ProcOutcome → Option String × String
  | .exit 0 out err => (some (pyStrip out), pyStrip err)
  | .exit (_ + 1) _ err => (none, pyStrip err)

/-- `_load_session_info` (lines 86-95): if the file is absent, return `{}`
and leave the object untouched; otherwise `json.load` the file — raising on
malformed contents, there is no try/except — and refresh `self.paused` (from
`info.get("paused", False)`) and `self.venv_path` (when the key is present)
before returning the record. -/
def loadSessionInfo (st : CLIState) (w : World) :
    Except Unit (CLIState × SessionInfo) :=
  match w.metadataFile with
  | none => .ok (st, emptyInfo)
  | some none => .error ()
  | some (some info) =>
      let st1 := { st with paused := info.paused.getD false }
      let st2 :=
        match info.venv_path with
        | some v => { st1 with venv_path := some v }
        | none => st1
      .ok (st2, info)

/-- `_save_session_info` (lines 78-84): overwrite `info["paused"]` with the
object's current `self.paused`, add `venv_path` when `self.venv_path` is set,
and write the file. -/
def saveSessionInfo (st : CLIState) (info : SessionInfo) (w : World) : World :=
  let info1 := { info with paused := some st.paused }
  let info2 :=
    match st.venv_path with
    | some v => { info1 with venv_path := some v }
    | none => info1
  { w with metadataFile := some (some info2) }

/-- Outcome of `send` / `force_send`: the distinct early returns of
lines 308-338 and 431-451. -/
inductive SendResult where
  | sessionNotFound
  | sessionPaused
  | sendFailed
  | sent
deriving DecidableEq

/-- `send` (lines 308-338): existence check first, then reload metadata and
fail when the loaded record says paused, otherwise transmit the command text
plus an Enter key via `send-keys` (the settle delay has no modelled effect). -/
def send (st : CLIState) (w : World) (env : Env) (command : String) :
    Except Unit (CLIState × World × SendResult) :=
  if w.sessionExists = false then .ok (st, w, .sessionNotFound)
  else
    match loadSessionInfo st w with
    | .error e => .error e
    | .ok (st1, info) =>
        if info.paused.getD false then .ok (st1, w, .sessionPaused)
        else if env.sendKeysOk then
          .ok (st1, { w with sentKeys := w.sentKeys ++ [command] }, .sent)
        else .ok (st1, w, .sendFailed)

/-- `force_send` (lines 431-451): existence check, then `send-keys` directly —
the metadata file is never loaded, so the persisted paused flag is ignored. -/
def force_send (st : CLIState) (w : World) (env : Env) (command : String) :
    CLIState × World × SendResult :=
  if w.sessionExists = false then (st, w, .sessionNotFound)
  else if env.sendKeysOk then
    (st, { w with sentKeys := w.sentKeys ++ [command] }, .sent)
  else (st, w, .sendFailed)

/-- `read` (lines 340-358): absent session returns `""` (after printing an
error); otherwise `capture-pane -p -S -lines` is run through `_run_tmux`, a
failed invocation returns `""`, and a successful one returns the captured
stdout as `_run_tmux` delivered it, i.e. stripped.  The line count only
shapes the tmux invocation, abstracted by `env.captureResult`. -/
def read (_st : CLIState) (w : World) (env : Env) (_lineCount : Nat) : String :=
  if w.sessionExists = false then ""
  else
    match env.captureResult with
    | none => ""
    | some out => pyStrip out

/-- `pause` (lines 400-414): absent session returns `False`; otherwise set
`self.paused = True`, reload the metadata (which overwrites `self.paused`
with the persisted value), set `info["paused"] = True` and save — where
`_save_session_info` overwrites that key again with the current
`self.paused`. -/
def pause (st : CLIState) (w : World) : Except Unit (CLIState × World × Bool) :=
  if w.sessionExists = false then .ok (st, w, false)
  else
    match loadSessionInfo { st with paused := true } w with
    | .error e => .error e
    | .ok (st2, info) =>
        .ok (st2, saveSessionInfo st2 { info with paused := some true } w, true)

/-- `resume` (lines 416-429): the mirror image of `pause` with `False`. -/
def resume (st : CLIState) (w : World) : Except Unit (CLIState × World × Bool) :=
  if w.sessionExists = false then .ok (st, w, false)
  else
    match loadSessionInfo { st with paused := false } w with
    | .error e => .error e
    | .ok (st2, info) =>
        .ok (st2, saveSessionInfo st2 { info with paused := some false } w, true)

/-- Result of `start` (lines 244-306): the distinct returns.  `alreadyExists`
records the paused flag reported from the loaded metadata. -/
inductive StartResult where
  | alreadyExists (pausedReported : Bool)
  | envNotFound
  | pythonNotFound
  | createFailed (err : String)
  | started
deriving DecidableEq

/-- The Python truthiness of the value `start` returns: `True` for
`alreadyExists` (line 260) and `started` (line 306), `False` otherwise. -/
def StartResult.toBool : StartResult → Bool
  | .alreadyExists _ => true
  | .started => true
  | _ => false

/-- The `new-session` invocation and the bookkeeping after it
(lines 278-306): on success the cosmetic colour options are applied
(best-effort, no modelled effect) and a fresh metadata record is written
(`created_at = now`, `working_dir = cwd`, `status = "active"`; `paused` is
added by `_save_session_info` from the object's `self.paused`); on failure
nothing is written and the captured stderr is reported.  The resolved python
command only shapes the tmux argv, which the oracle abstracts. -/
def startCreate (st : CLIState) (w : World) (env : Env) :
    CLIState × World × StartResult :=
  let w1 := { w with newSessionCalls := w.newSessionCalls + 1 }
  if env.newSessionOk then
    let info : SessionInfo :=
      { emptyInfo with
        session_name := some st.session_name,
        created_at := some env.now,
        working_dir := some env.cwd,
        status := some "active" }
    (st, saveSessionInfo st info { w1 with sessionExists := true }, .started)
  else (st, w1, .createFailed env.newSessionErr)

/-- `start` after the `venv_path` argument has been absorbed into the object
(lines 249-306): existence check first (already-exists is reported by loading
the metadata — which raises on a malformed file); only when no session exists
is the venv path validated (root directory, then `bin/python` inside it,
with no fallback to the default interpreter), and only then is `new-session`
issued. -/
def startMain (st : CLIState) (w : World) (env : Env) :
    Except Unit (CLIState × World × StartResult) :=
  if w.sessionExists = true then
    match loadSessionInfo st w with
    | .error e => .error e
    | .ok (st1, info) => .ok (st1, w, .alreadyExists (info.paused.getD false))
  else
    match st.venv_path with
    | some v =>
        if env.pathExists v = false then .ok (st, w, .envNotFound)
        else if env.pathExists (v ++ "/bin/python") = false then
          .ok (st, w, .pythonNotFound)
        else .ok (startCreate st w env)
    | none => .ok (startCreate st w env)

/-- `start` (lines 244-247 plus `startMain`): an explicit venv argument is
stored into `self.venv_path` first. -/
def start (st : CLIState) (w : World) (env : Env) (venvArg : Option String) :
    Except Unit (CLIState × World × StartResult) :=
  match venvArg with
  | some v => startMain { st with venv_path := some v } w env
  | none => startMain st w env

/-- `stop` (lines 453-471): absent session returns `True`; otherwise
`self.send("exit()")` (whose result is ignored, but whose metadata load can
raise), then `kill-session` with its result ignored, then the metadata file
is removed when present, and `True` is returned. -/
def stop (st : CLIState) (w : World) (env : Env) :
    Except Unit (CLIState × World × Bool) :=
  if w.sessionExists = false then .ok (st, w, true)
  else
    match send st w env "exit()" with
    | .error e => .error e
    | .ok (st1, w1, _) =>
        let w2 := if env.killOk then { w1 with sessionExists := false } else w1
        .ok (st1, { w2 with metadataFile := none }, true)

/-- The persisted paused flag of a world's metadata file, when well-formed. -/
def persistedPaused (w : World) : Option Bool :=
  match w.metadataFile with
  | some (some i) => i.paused
  | _ => none

/-- Initial world: no tmux session, no metadata file, nothing transmitted. -/
def w0 : World :=
  { sessionExists := false, metadataFile := none, sentKeys := [],
    newSessionCalls := 0 }

/-- A concrete oracle: session creation, key sending and killing all succeed,
capture returns `""`, no filesystem path exists, clock 0, cwd `/w`. -/
def env0 : Env :=
  { newSessionOk := true, newSessionErr := "", sendKeysOk := true,
    captureResult := some "", killOk := true, pathExists := fun _ => false,
    now := 0, cwd := "/w" }

/-- The metadata record the first successful `start` under `env0` writes. -/
def info1 : SessionInfo :=
  { paused := some false, venv_path := none, session_name := some "claude",
    created_at := some 0, working_dir := some "/w", status := some "active" }

/-- The world after one successful `start` under `env0`. -/
def w1c : World :=
  { sessionExists := true, metadataFile := some (some info1), sentKeys := [],
    newSessionCalls := 1 }

/-- A live session whose metadata file stores `paused = true`. -/
def wPausedTrue : World :=
  { sessionExists := true,
    metadataFile := some (some { info1 with paused := some true }),
    sentKeys := [], newSessionCalls := 1 }

/-- The in-memory state after an operation re-loaded `paused = true`. -/
def pausedCLI : CLIState := { initCLI with paused := true }

/-- A live session whose metadata file is present but malformed JSON. -/
def wBadMeta : World :=
  { sessionExists := true, metadataFile := some none, sentKeys := [],
    newSessionCalls := 0 }

/-- A live session with no metadata file. -/
def wLive : World := { w0 with sessionExists := true }

/-- The out-of-band state of claim C6: metadata file present, session gone. -/
def wOrphan : World := { w0 with metadataFile := some (some info1) }

/-- Oracle whose capture-pane stdout ends in a newline. -/
def envCap : Env := { env0 with captureResult := some "abc\n" }

/-- Helper: `loadSessionInfo` raises only when the metadata file is present
but malformed. -/
theorem loadSessionInfo_error {st : CLIState} {w : World} {e : Unit}
    (h : loadSessionInfo st w = .error e) : w.metadataFile = some none := by
  unfold loadSessionInfo at h
  split at h <;> simp_all

/-- Helper: `send` raises only when the metadata file is present but
malformed. -/
theorem send_error {st : CLIState} {w : World} {env : Env} {c : String}
    {e : Unit} (h : send st w env c = .error e) :
    w.metadataFile = some none := by
  unfold send at h
  split at h
  · simp at h
  · cases hl : loadSessionInfo st w with
    | error e2 => exact loadSessionInfo_error hl
    | ok p =>
        rw [hl] at h
        obtain ⟨st1, info⟩ := p
        simp only [] at h
        split at h
        · simp at h
        · split at h <;> simp at h

/-- Helper: when `new-session` succeeds, `startCreate` creates the session
and writes a fresh metadata record. -/
theorem startCreate_eq {st : CLIState} {w : World} {env : Env}
    (h : env.newSessionOk = true) :
    ∃ i : SessionInfo,
      i.paused = some st.paused ∧ i.status = some "active" ∧
      startCreate st w env
        = (st,
           { w with
              sessionExists := true
              metadataFile := some (some i)
              newSessionCalls := w.newSessionCalls + 1 },
           .started) := by
  cases hv : st.venv_path with
  | none =>
      exact ⟨⟨some st.paused, none, some st.session_name, some env.now,
        some env.cwd, some "active"⟩, rfl, rfl,
        by simp [startCreate, saveSessionInfo, emptyInfo, h, hv]⟩
  | some v =>
      exact ⟨⟨some st.paused, some v, some st.session_name, some env.now,
        some env.cwd, some "active"⟩, rfl, rfl,
        by simp [startCreate, saveSessionInfo, emptyInfo, h, hv]⟩

/-- Helper: a `startCreate` that reports `started` leaves the session in
existence with a well-formed metadata record. -/
theorem startCreate_started {st st' : CLIState} {w w' : World} {env : Env}
    (h : startCreate st w env = (st', w', .started)) :
    w'.sessionExists = true ∧ ∃ i, w'.metadataFile = some (some i) := by
  cases hn : env.newSessionOk with
  | false =>
      unfold startCreate at h
      rw [hn] at h
      simp at h
  | true =>
      obtain ⟨i, -, -, hc⟩ := @startCreate_eq st w env hn
      rw [hc] at h
      simp only [Prod.mk.injEq] at h
      obtain ⟨-, hw, -⟩ := h
      subst hw
      exact ⟨rfl, i, rfl⟩

/-- Helper: a `startMain` that reports `started` leaves the session in
existence with a well-formed metadata record. -/
theorem startMain_started {st st' : CLIState} {w w' : World} {env : Env}
    (h : startMain st w env = .ok (st', w', .started)) :
    w'.sessionExists = true ∧ ∃ i, w'.metadataFile = some (some i) := by
  unfold startMain at h
  split at h
  · split at h <;> simp at h
  · split at h
    · split at h
      · simp at h
      · split at h
        · simp at h
        · simp only [Except.ok.injEq] at h
          exact startCreate_started h
    · simp only [Except.ok.injEq] at h
      exact startCreate_started h

/-- Helper: `start` reporting `started` leaves a live session with a
well-formed metadata record. -/
theorem start_started {st st' : CLIState} {w w' : World} {env : Env}
    {v : Option String} (h : start st w env v = .ok (st', w', .started)) :
    w'.sessionExists = true ∧ ∃ i, w'.metadataFile = some (some i) := by
  cases v with
  | none => exact startMain_started h
  | some vp => exact startMain_started h

/-- Helper: on a live session with a well-formed metadata record,
`startMain` reports already-exists with the record's paused flag and leaves
the world untouched. -/
theorem startMain_existing (st : CLIState) (env : Env) {w : World}
    {i : SessionInfo} (he : w.sessionExists = true)
    (hi : w.metadataFile = some (some i)) :
    ∃ st2, startMain st w env
      = .ok (st2, w, .alreadyExists (i.paused.getD false)) := by
  cases hv : i.venv_path with
  | none =>
      exact ⟨{ st with paused := i.paused.getD false },
        by simp [startMain, he, loadSessionInfo, hi, hv]⟩
  | some v =>
      exact ⟨{ st with paused := i.paused.getD false, venv_path := some v },
        by simp [startMain, he, loadSessionInfo, hi, hv]⟩

/-- Helper: on a live session whose metadata file is not malformed,
`startMain` reports already-exists and leaves the world untouched. -/
theorem startMain_existing_ok (st : CLIState) (env : Env) {w : World}
    (he : w.sessionExists = true) (hm : w.metadataFile ≠ some none) :
    ∃ st2 rep, startMain st w env = .ok (st2, w, .alreadyExists rep) := by
  rcases hmf : w.metadataFile with _ | mi
  · exact ⟨st, false,
      by simp [startMain, he, loadSessionInfo, hmf, emptyInfo]⟩
  · rcases mi with _ | i
    · exact absurd hmf hm
    · obtain ⟨st2, h2⟩ := startMain_existing st env he hmf
      exact ⟨st2, _, h2⟩

/-- Claim C1 (code bug), evaluated at the failing input: `start` persists a
record with `paused = false`; `pause` then re-persists `paused = false`
(because `_load_session_info` overwrites `self.paused` with the stale
persisted value and `_save_session_info` clobbers the `paused` key that
`pause` set with that stale `self.paused`); a subsequent non-forced
`send "x=1"` therefore succeeds and transmits the keystrokes instead of
failing with SessionPaused.  `force_send` succeeds as the claim states. -/
theorem c1_pause_gating_code_bug :
    start initCLI w0 env0 none = .ok (initCLI, w1c, .started) ∧
    pause initCLI w1c = .ok (initCLI, w1c, true) ∧
    send initCLI w1c env0 "x=1"
      = .ok (initCLI, { w1c with sentKeys := ["x=1"] }, .sent) ∧
    force_send initCLI w1c env0 "y=2"
      = (initCLI, { w1c with sentKeys := ["y=2"] }, .sent) :=
  ⟨rfl, rfl, rfl, rfl⟩

/-- Claim C2 (code bug), evaluated at failing inputs: on a live session whose
metadata stores `paused = false`, `pause` returns success but the persisted
flag stays `false`; on one whose metadata stores `paused = true`, `resume`
returns success but the persisted flag stays `true`.  Both operations merely
re-persist the previously stored value whenever the metadata file exists. -/
theorem c2_pause_resume_persist_code_bug :
    pause initCLI w1c = .ok (initCLI, w1c, true) ∧
    persistedPaused w1c = some false ∧
    resume initCLI wPausedTrue = .ok (pausedCLI, wPausedTrue, true) ∧
    persistedPaused wPausedTrue = some true :=
  ⟨rfl, rfl, rfl, rfl⟩

/-- Claim C3: on a freshly constructed controller with no existing tmux
session: a venv argument whose root path does not exist fails with the
environment-not-found error and leaves the world untouched (no metadata
write, no session creation, no fallback to the default interpreter);
likewise when the root exists but `bin/python` inside it does not; a failed
`new-session` invocation writes no metadata and reports the captured stderr;
a successful creation writes a fresh record with `paused = false` and
`status = "active"`. -/
theorem c3_start_fresh (w : World) (env : Env) (v : String)
    (h : w.sessionExists = false) :
    (env.pathExists v = false →
      start initCLI w env (some v)
        = .ok ({ initCLI with venv_path := some v }, w, .envNotFound)) ∧
    (env.pathExists v = true → env.pathExists (v ++ "/bin/python") = false →
      start initCLI w env (some v)
        = .ok ({ initCLI with venv_path := some v }, w, .pythonNotFound)) ∧
    (env.newSessionOk = false →
      start initCLI w env none
        = .ok (initCLI, { w with newSessionCalls := w.newSessionCalls + 1 },
            .createFailed env.newSessionErr)) ∧
    (env.newSessionOk = true →
      ∃ i : SessionInfo,
        i.paused = some false ∧ i.status = some "active" ∧
        start initCLI w env none
          = .ok (initCLI,
              { w with
                  sessionExists := true
                  metadataFile := some (some i)
                  newSessionCalls := w.newSessionCalls + 1 },
              .started)) := by
  have hnv : initCLI.venv_path = none := rfl
  refine ⟨fun h1 => ?_, fun h1 h2 => ?_, fun h1 => ?_, fun h1 => ?_⟩
  · simp [start, startMain, h, h1]
  · simp [start, startMain, h, h1, h2]
  · simp [start, startMain, startCreate, h, h1, hnv]
  · obtain ⟨i, hp, hs, hc⟩ := @startCreate_eq initCLI w env h1
    exact ⟨i, hp, hs, by simp [start, startMain, h, hnv, hc]⟩

/-- Claim C3 witness: concrete instance of the environment-not-found case. -/
theorem c3_start_fresh_witness :
    start initCLI w0 env0 (some "/v")
      = .ok ({ initCLI with venv_path := some "/v" }, w0, .envNotFound) :=
  (c3_start_fresh w0 env0 "/v" rfl).1 rfl

/-- Claim C4: when a first `start` succeeds in creating the session, a
second `start` with the same arguments reports already-exists, returns
success (Python `True`), and leaves the world untouched: no second
`new-session` invocation and no metadata write. -/
theorem c4_start_twice (w w1 : World) (env : Env) (st1 : CLIState)
    (v : Option String)
    (h1 : start initCLI w env v = .ok (st1, w1, .started)) :
    ∃ st2 rep, start initCLI w1 env v = .ok (st2, w1, .alreadyExists rep) ∧
      StartResult.toBool (.alreadyExists rep) = true := by
  obtain ⟨he, i, hi⟩ := start_started h1
  cases v with
  | none =>
      obtain ⟨st2, h2⟩ := startMain_existing initCLI env he hi
      exact ⟨st2, _, h2, rfl⟩
  | some vp =>
      obtain ⟨st2, h2⟩ :=
        startMain_existing { initCLI with venv_path := some vp } env he hi
      exact ⟨st2, _, h2, rfl⟩

/-- Claim C4 witness: concrete double start under `env0`. -/
theorem c4_start_twice_witness :
    ∃ st2 rep, start initCLI w1c env0 none
      = .ok (st2, w1c, .alreadyExists rep) ∧
      StartResult.toBool (.alreadyExists rep) = true :=
  c4_start_twice w0 w1c env0 initCLI none rfl

/-- Claim C5 counterexample: with a live session and a malformed metadata
file, the internal `send("exit()")` raises from the uncaught `json.load`,
so `stop` does not return success — refuting the claim as universally
stated. -/
theorem c5_stop_counterexample : stop initCLI wBadMeta env0 = .error () := rfl

/-- Claim C5 amended: provided any existing metadata file is well-formed,
`stop` always returns success — a no-op success on an absent session, and on
a live session success irrespective of the kill-session outcome and of the
internal exit-command send's result, with the metadata file removed whenever
present. -/
theorem c5_stop_amended (st : CLIState) (w : World) (env : Env)
    (hm : w.metadataFile ≠ some none) :
    (w.sessionExists = false → stop st w env = .ok (st, w, true)) ∧
    (w.sessionExists = true →
      ∃ st' w', stop st w env = .ok (st', w', true) ∧
        w'.metadataFile = none) := by
  constructor
  · intro h
    simp [stop, h]
  · intro h
    cases hs : send st w env "exit()" with
    | error e => exact absurd (send_error hs) hm
    | ok p =>
        obtain ⟨st1, w1, r⟩ := p
        refine ⟨st1,
          { (if env.killOk then { w1 with sessionExists := false } else w1)
              with metadataFile := none }, ?_, ?_⟩
        · simp [stop, h, hs]
        · cases hk : env.killOk <;> simp [hk]

/-- Claim C5 witness: stopping the concretely started session succeeds and
removes the metadata file. -/
theorem c5_stop_amended_witness :
    ∃ st' w', stop initCLI w1c env0 = .ok (st', w', true) ∧
      w'.metadataFile = none :=
  (c5_stop_amended initCLI w1c env0 (by decide)).2 rfl

/-- Claim C6: the tmux existence check alone decides the SessionNotFound
outcome of `send` and `read`: whenever the session is absent — whatever the
metadata file contains, present, absent or malformed — `send` reports
SessionNotFound without transmitting anything and `read` returns the empty
result. -/
theorem c6_existence_check_decides (st : CLIState) (w : World) (env : Env)
    (cmd : String) (n : Nat) (h : w.sessionExists = false) :
    send st w env cmd = .ok (st, w, .sessionNotFound) ∧
    read st w env n = "" :=
  ⟨by simp [send, h], by simp [read, h]⟩

/-- Claim C6 witness: session killed out-of-band while its metadata file
still exists — send and read both report the session as missing. -/
theorem c6_existence_check_decides_witness :
    send initCLI wOrphan env0 "x=1"
      = .ok (initCLI, wOrphan, .sessionNotFound) ∧
    read initCLI wOrphan env0 50 = "" :=
  c6_existence_check_decides initCLI wOrphan env0 "x=1" 50 rfl

/-- Claim C7 counterexample: the adapter strips captured stdout
(`result.stdout.strip()` in `_run_tmux`), so a capture whose raw stdout is
`"abc\n"` is returned as `"abc"` — not verbatim. -/
theorem c7_read_counterexample :
    read initCLI wLive envCap 20 = "abc" ∧ ("abc" : String) ≠ "abc\n" :=
  ⟨by decide, by decide⟩

/-- Claim C7 amended: `read` on an absent session returns the empty string
rather than raising; a failed capture invocation also returns the empty
string; a successful capture is returned after stripping leading and
trailing whitespace, with no other parsing or filtering. -/
theorem c7_read_amended (st : CLIState) (w : World) (env : Env) (n : Nat) :
    (w.sessionExists = false → read st w env n = "") ∧
    (env.captureResult = none → read st w env n = "") ∧
    (∀ s, env.captureResult = some s → w.sessionExists = true →
      read st w env n = pyStrip s) := by
  refine ⟨fun h => by simp [read, h], fun h => ?_,
    fun s hs he => by simp [read, hs, he]⟩
  cases hex : w.sessionExists <;> simp [read, h, hex]

/-- Claim C7 witness: a live session whose capture stdout ends in a newline
is read back stripped. -/
theorem c7_read_amended_witness :
    read initCLI wLive envCap 20 = pyStrip "abc\n" :=
  (c7_read_amended initCLI wLive envCap 20).2.2 "abc\n" rfl rfl

/-- Claim C8 counterexample: a present-but-malformed metadata file makes
`_load_session_info` raise (there is no try/except around `json.load`)
instead of degrading to the empty record. -/
theorem c8_load_counterexample :
    loadSessionInfo initCLI wBadMeta = .error () := rfl

/-- Claim C8 amended: an absent metadata file loads as the empty record and
is never an error; a malformed existing file raises the parse exception
rather than degrading to the empty-record default. -/
theorem c8_load_amended (st : CLIState) (w : World) :
    (w.metadataFile = none → loadSessionInfo st w = .ok (st, emptyInfo)) ∧
    (w.metadataFile = some none → loadSessionInfo st w = .error ()) := by
  constructor <;> intro h <;> simp [loadSessionInfo, h]

/-- Claim C8 witness: loading with no metadata file yields the empty record. -/
theorem c8_load_amended_witness :
    loadSessionInfo initCLI w0 = .ok (initCLI, emptyInfo) :=
  (c8_load_amended initCLI w0).1 rfl

/-- Claim C9 counterexample: the subprocess invocation `_run_tmux` issues
carries no timeout argument, refuting the claim that every adapter
invocation does. -/
theorem c9_timeout_counterexample :
    (runTmuxCall ["has-session", "-t", "claude"]).timeout = none := rfl

/-- Claim C9 amended: the adapter's tmux invocations carry no timeout at
all; a non-zero exit is reported as a failure value — `None` stdout together
with the stripped stderr text — and never raised to the caller. -/
theorem c9_run_tmux_amended (cmd : List String) (c : Nat) (out err : String)
    (h : c ≠ 0) :
    (runTmuxCall cmd).timeout = none ∧
    runTmux (.exit c out err) = (none, pyStrip err) := by
  refine ⟨rfl, ?_⟩
  cases c with
  | zero => exact absurd rfl h
  | succ k => rfl

/-- Claim C9 witness: a failed kill-session at exit code 1. -/
theorem c9_run_tmux_amended_witness :
    (runTmuxCall ["kill-session", "-t", "claude"]).timeout = none ∧
    runTmux (.exit 1 "" "boom") = (none, pyStrip "boom") :=
  c9_run_tmux_amended ["kill-session", "-t", "claude"] 1 "" "boom" (by decide)

/-- Claim C10 counterexample: with a live session but a malformed metadata
file, `start` raises from the metadata load instead of returning success
(the environment path is still never validated, but the call does not
succeed as claimed). -/
theorem c10_start_counterexample :
    start initCLI wBadMeta env0 (some "/nonexistent") = .error () := rfl

/-- Claim C10 amended: with a live session and a well-formed-or-absent
metadata file, `start` with an environment-path argument returns success
reporting the existing session, leaving the world untouched; the result
holds for every filesystem oracle, so the environment path is never
validated — the EnvironmentNotFound check is reached only when no session
exists. -/
theorem c10_start_skips_env_validation (w : World) (env : Env) (v : String)
    (h : w.sessionExists = true) (hm : w.metadataFile ≠ some none) :
    ∃ st2 rep, start initCLI w env (some v)
      = .ok (st2, w, .alreadyExists rep) := by
  obtain ⟨st2, rep, h2⟩ :=
    startMain_existing_ok { initCLI with venv_path := some v } env h hm
  exact ⟨st2, rep, h2⟩

/-- Claim C10 witness: a nonexistent venv path alongside a live session is
silently ignored. -/
theorem c10_start_skips_env_validation_witness :
    ∃ st2 rep, start initCLI wLive env0 (some "/nonexistent")
      = .ok (st2, wLive, .alreadyExists rep) :=
  c10_start_skips_env_validation wLive env0 "/nonexistent" rfl (by decide)

end Cli
